import Mathlib

/-!
# Notification gateway (`main.go`): registry and dispatch handlers

A shallow embedding of the HTTP handlers registered in `main` of `main.go`:

* `POST /register`  (lines 62-74)   -> `register`
* `POST /send-user` (lines 77-113)  -> `sendUser`
* `POST /broadcast` (lines 139-167) -> `broadcast`

The package-level variable `userTokens` (a Go `map[string]string`) is passed
explicitly; of the package-level `fcmClient` the handlers use only the method
`Send`, passed as a function.  Every handler returns a `Run`: the map it
leaves behind together with everything it did that is observable from outside
(map reads, provider calls, lines printed, the JSON response) and whether it
ended in a run-time panic.

Go strings are byte strings; `len` is `String.utf8ByteSize`.  The outcome of
`c.ShouldBindJSON(&req)` is the input of a handler: either the error it
returned or the populated request struct.  None of the request structs carries
a `binding` tag, so binding succeeds for every well-formed JSON object of
string fields, whatever the strings are (the empty string included).
-/

namespace Notif

/-! ## Data model -/

/-- Go `error` value, observed only through the text of `Error()`. -/
structure GoError where
  text : String
deriving DecidableEq, Repr

/-- Request struct `TokenReq` (lines 21-24). -/
structure TokenReq where
  UserID : String
  Token : String
deriving DecidableEq, Repr

/-- Request struct `SendUserReq` (lines 26-30). -/
structure SendUserReq where
  TargetUserID : String
  Title : String
  Body : String
deriving DecidableEq, Repr

/-- Request struct `BroadcastReq` (lines 32-36). -/
structure BroadcastReq where
  Topic : String
  Title : String
  Body : String
deriving DecidableEq, Repr

/-- Struct `messaging.Notification`, the two fields the handlers set. -/
structure Notification where
  Title : String
  Body : String
deriving DecidableEq, Repr

/-- Struct `messaging.Message`, the fields the handlers set.  A field a
composite literal leaves out holds its zero value: the empty string for
`Token` and `Topic`, `nil` for `Notification` and `Data`. -/
structure Message where
  Token : String
  Topic : String
  Notification : Option Notification
  Data : List (String × String)
deriving DecidableEq, Repr

/-- The call `fcmClient.Send(context.Background(), message)`: it returns a
message id and an error, `nil` (here `none`) on success. -/
abbrev Sender := Message → String × Option GoError

/-- The Go type `map[string]string` of `userTokens`. -/
abbrev TokenMap := String → Option String

/-- The initial value `make(map[string]string)` (line 18). -/
def TokenMap.make : TokenMap := fun _ => none

/-- Map assignment `m[key] = val`. -/
def TokenMap.set (m : TokenMap) (key val : String) : TokenMap :=
  fun k => if k = key then some val else m k

/-- Two-valued map read `val, exists := m[key]`: the zero value and `false`
for an absent key. -/
def TokenMap.get (m : TokenMap) (key : String) : String × Bool :=
  match m key with
  | some val => (val, true)
  | none => ("", false)

/-- An argument of a `%s` verb: a string, or the raw bytes of a string slice
(which need not be valid UTF-8). -/
inductive FmtArg where
  | str (s : String)
  | bytes (b : List UInt8)
deriving DecidableEq, Repr

/-- One call of `fmt.Printf`: the format string and its arguments. -/
structure Printf where
  format : String
  args : List FmtArg
deriving DecidableEq, Repr

/-- One call of `c.JSON(code, gin.H{...})`: status code and the key/value
pairs of the body, in the order of the literal. -/
structure Response where
  code : Nat
  body : List (String × String)
deriving DecidableEq, Repr

/-- What one execution of a handler leaves behind. -/
structure Run where
  /-- the map `userTokens` when the handler ends -/
  userTokens : TokenMap
  /-- keys read from `userTokens`, in order -/
  reads : List String
  /-- messages handed to `fcmClient.Send`, in order -/
  sends : List Message
  /-- calls of `fmt.Printf`, in order -/
  stdout : List Printf
  /-- the response written with `c.JSON`, if any -/
  response : Option Response
  /-- the handler ended in a run-time panic -/
  panicked : Bool

/-! ## Go primitives -/

/-- Go `len(s)` of a string: its number of bytes. -/
def len (s : String) : Int := (s.utf8ByteSize : Int)

/-- Go slice expression `s[lo:]` on a string: the bytes from offset `lo` on;
a run-time panic (`none`) unless `0 ≤ lo ≤ len(s)`. -/
def sliceFrom (s : String) (lo : Int) : Option (List UInt8) :=
  if 0 ≤ lo ∧ lo ≤ len s then some (s.toUTF8.data.toList.drop lo.toNat) else none

/-- The call `fmt.Sprintf("User ID '%s' belum terdaftar/connect", id)`. -/
def notRegisteredText (id : String) : String :=
  "User ID '" ++ id ++ "' belum terdaftar/connect"

/-! ## Handlers -/

/-- Handler of `POST /register` (lines 62-74). -/
def register (userTokens : TokenMap) (bound : Except GoError TokenReq) : Run :=
  match bound with
  | .error err =>
    { userTokens := userTokens, reads := [], sends := [], stdout := [],
      response := some ⟨400, [("error", err.text)]⟩, panicked := false }
  | .ok req =>
    let userTokens1 := userTokens.set req.UserID req.Token
    match sliceFrom req.Token (len req.Token - 10) with
    | none =>
      { userTokens := userTokens1, reads := [], sends := [], stdout := [],
        response := none, panicked := true }
    | some last =>
      { userTokens := userTokens1, reads := [], sends := [],
        stdout := [⟨"📝 User Terdaftar: [%s] -> Token: ...%s\n",
                    [.str req.UserID, .bytes last]⟩],
        response := some ⟨200, [("message", "User registered successfully")]⟩,
        panicked := false }

/-- The message literal of the send-user handler (lines 93-102). -/
def userMessage (token : String) (req : SendUserReq) : Message :=
  { Token := token, Topic := "",
    Notification := some { Title := req.Title, Body := req.Body },
    Data := [("screen", "chat")] }

/-- Handler of `POST /send-user` (lines 77-113). -/
def sendUser (userTokens : TokenMap) (Send : Sender)
    (bound : Except GoError SendUserReq) : Run :=
  match bound with
  | .error err =>
    { userTokens := userTokens, reads := [], sends := [], stdout := [],
      response := some ⟨400, [("error", err.text)]⟩, panicked := false }
  | .ok req =>
    match userTokens.get req.TargetUserID with
    | (_, false) =>
      { userTokens := userTokens, reads := [req.TargetUserID], sends := [],
        stdout := [],
        response := some ⟨404, [("error", notRegisteredText req.TargetUserID)]⟩,
        panicked := false }
    | (token, true) =>
      let message := userMessage token req
      match Send message with
      | (_, some err) =>
        { userTokens := userTokens, reads := [req.TargetUserID],
          sends := [message], stdout := [],
          response := some ⟨500, [("error", err.text)]⟩, panicked := false }
      | (responseID, none) =>
        { userTokens := userTokens, reads := [req.TargetUserID],
          sends := [message],
          stdout := [⟨"🚀 Terkirim ke User: %s (MsgID: %s)\n",
                      [.str req.TargetUserID, .str responseID]⟩],
          response := some ⟨200, [("status", "sent"),
                                  ("target_user", req.TargetUserID)]⟩,
          panicked := false }

/-- The message literal of the broadcast handler (lines 147-156). -/
def topicMessage (req : BroadcastReq) : Message :=
  { Token := "", Topic := req.Topic,
    Notification := some { Title := req.Title, Body := req.Body },
    Data := [("screen", "auction")] }

/-- Handler of `POST /broadcast` (lines 139-167). -/
def broadcast (userTokens : TokenMap) (Send : Sender)
    (bound : Except GoError BroadcastReq) : Run :=
  match bound with
  | .error err =>
    { userTokens := userTokens, reads := [], sends := [], stdout := [],
      response := some ⟨400, [("error", err.text)]⟩, panicked := false }
  | .ok req =>
    let message := topicMessage req
    match Send message with
    | (_, some err) =>
      { userTokens := userTokens, reads := [], sends := [message], stdout := [],
        response := some ⟨500, [("error", err.text)]⟩, panicked := false }
    | (responseID, none) =>
      { userTokens := userTokens, reads := [], sends := [message],
        stdout := [⟨"📢 Broadcast ke topic [%s] sukses! ID: %s\n",
                    [.str req.Topic, .str responseID]⟩],
        response := some ⟨200, [("status", "broadcast_sent"),
                                ("topic", req.Topic)]⟩,
        panicked := false }

/-- The map `userTokens` after a sequence of register calls, oldest first.
A call that ends in a panic has already assigned to the map (line 70 comes
before line 72), and the server goes on serving with the map so written. -/
def registerAll (userTokens : TokenMap) : List (Except GoError TokenReq) → TokenMap
  | [] => userTokens
  | call :: rest => registerAll (register userTokens call).userTokens rest

/-- A response carries the string `m` when `m` is one of the values of its
JSON body. -/
def Response.carries (r : Response) (m : String) : Prop :=
  ∃ kv ∈ r.body, kv.2 = m

instance (r : Response) (m : String) : Decidable (r.carries m) := by
  unfold Response.carries
  infer_instance

/-! ## Auxiliary facts -/

theorem set_get_same (m : TokenMap) (key val : String) :
    (m.set key val).get key = (val, true) := by
  simp [TokenMap.get, TokenMap.set]

theorem register_ok_userTokens (m : TokenMap) (req : TokenReq) :
    (register m (.ok req)).userTokens = m.set req.UserID req.Token := by
  unfold register
  dsimp only
  split <;> rfl

theorem register_error_userTokens (m : TokenMap) (err : GoError) :
    (register m (.error err)).userTokens = m := rfl

theorem sliceFrom_isSome_iff (s : String) (lo : Int) :
    (sliceFrom s lo).isSome = true ↔ 0 ≤ lo ∧ lo ≤ len s := by
  unfold sliceFrom
  split <;> simp_all

theorem registerAll_other_key (calls : List (Except GoError TokenReq)) :
    ∀ (m : TokenMap) (key : String),
      (∀ q : TokenReq, Except.ok q ∈ calls → q.UserID ≠ key) →
      registerAll m calls key = m key := by
  induction calls with
  | nil => intro m key _; rfl
  | cons call rest ih =>
    intro m key h
    have hrest : ∀ q : TokenReq, Except.ok q ∈ rest → q.UserID ≠ key :=
      fun q hq => h q (List.mem_cons_of_mem _ hq)
    show registerAll (register m call).userTokens rest key = m key
    rw [ih _ key hrest]
    cases call with
    | error err => rfl
    | ok q =>
      rw [register_ok_userTokens]
      have hne : q.UserID ≠ key := h q (List.mem_cons_self _ _)
      simp [TokenMap.set, Ne.symm hne]

theorem sendUser_found (m : TokenMap) (Send : Sender) (req : SendUserReq)
    (a : String) (h : m.get req.TargetUserID = (a, true)) :
    (sendUser m Send (.ok req)).reads = [req.TargetUserID]
    ∧ (sendUser m Send (.ok req)).sends = [userMessage a req] := by
  unfold sendUser
  simp only [h]
  split <;> exact ⟨rfl, rfl⟩

theorem sendUser_missing (m : TokenMap) (Send : Sender) (req : SendUserReq)
    (h : (m.get req.TargetUserID).2 = false) :
    sendUser m Send (.ok req) =
      { userTokens := m, reads := [req.TargetUserID], sends := [], stdout := [],
        response := some ⟨404, [("error", notRegisteredText req.TargetUserID)]⟩,
        panicked := false } := by
  rcases hg : m.get req.TargetUserID with ⟨v, b⟩
  rw [hg] at h
  simp only at h
  subst h
  unfold sendUser
  simp only [hg]

theorem register_panicked_iff (m : TokenMap) (req : TokenReq) :
    (register m (.ok req)).panicked = true ↔ len req.Token < 10 := by
  unfold register
  dsimp only
  split
  · next h =>
    have hs := sliceFrom_isSome_iff req.Token (len req.Token - 10)
    rw [h] at hs
    simp only [Option.isSome_none, Bool.false_eq_true, false_iff, not_and] at hs
    constructor
    · intro _
      by_contra hge
      exact hs (by omega) (by omega)
    · intro _; rfl
  · next last h =>
    have hs := sliceFrom_isSome_iff req.Token (len req.Token - 10)
    rw [h] at hs
    simp only [Option.isSome_some, true_iff] at hs
    constructor
    · intro hp; simp at hp
    · intro hlt; omega

theorem register_long_token (m : TokenMap) (req : TokenReq)
    (h : 10 ≤ len req.Token) :
    (register m (.ok req)).response =
        some ⟨200, [("message", "User registered successfully")]⟩
    ∧ (register m (.ok req)).panicked = false := by
  have hp := register_panicked_iff m req
  unfold register at hp ⊢
  dsimp only at hp ⊢
  split
  · next hn =>
    rw [hn] at hp
    exact absurd (hp.mp rfl) (by omega)
  · exact ⟨rfl, rfl⟩

/-! ## The registry: register, then look up -/

/-- C1: whatever the map held before (another address for `user_id`
included), after the register handler has run on the pair
`(user_id, address)` the two-valued read of `user_id` that the send-user
handler performs yields exactly `address`; the send-user handler then reads
that key and addresses its message to `address`; and a second registration of
the same `user_id` replaces the first address (last write wins). -/
theorem register_then_lookup (userTokens : TokenMap) (Send : Sender)
    (user_id address old title body : String) :
    (register userTokens (.ok ⟨user_id, address⟩)).userTokens.get user_id
        = (address, true)
    ∧ (sendUser (register userTokens (.ok ⟨user_id, address⟩)).userTokens Send
          (.ok ⟨user_id, title, body⟩)).reads = [user_id]
    ∧ (sendUser (register userTokens (.ok ⟨user_id, address⟩)).userTokens Send
          (.ok ⟨user_id, title, body⟩)).sends
        = [userMessage address ⟨user_id, title, body⟩]
    ∧ (userMessage address ⟨user_id, title, body⟩).Token = address
    ∧ (register (register userTokens (.ok ⟨user_id, old⟩)).userTokens
          (.ok ⟨user_id, address⟩)).userTokens.get user_id = (address, true) := by
  have hget : ∀ m : TokenMap,
      (register m (.ok ⟨user_id, address⟩)).userTokens.get user_id
        = (address, true) := by
    intro m
    rw [register_ok_userTokens]
    exact set_get_same m user_id address
  have hs := sendUser_found (register userTokens (.ok ⟨user_id, address⟩)).userTokens
    Send ⟨user_id, title, body⟩ address (hget userTokens)
  exact ⟨hget userTokens, hs.1, hs.2, rfl, hget _⟩

/-! ## Sending to one user -/

/-- C2 (as the code has it): when `target_user_id` is bound to `a` and the
provider's `Send` succeeds with message id `m`, the send-user handler calls
the provider exactly once, with a message whose token is `a`, whose topic is
empty and whose notification has the given title and body; it answers 200
with the body `status: sent, target_user: target_user_id`; the message id `m`
goes to the line printed on standard output and nowhere else. -/
theorem sendUser_sent (userTokens : TokenMap) (Send : Sender) (req : SendUserReq)
    (a m : String)
    (hreg : userTokens.get req.TargetUserID = (a, true))
    (hsend : Send (userMessage a req) = (m, none)) :
    (sendUser userTokens Send (.ok req)).sends = [userMessage a req]
    ∧ (userMessage a req).Token = a
    ∧ (userMessage a req).Topic = ""
    ∧ (userMessage a req).Notification = some ⟨req.Title, req.Body⟩
    ∧ (sendUser userTokens Send (.ok req)).response
        = some ⟨200, [("status", "sent"), ("target_user", req.TargetUserID)]⟩
    ∧ (sendUser userTokens Send (.ok req)).stdout
        = [⟨"🚀 Terkirim ke User: %s (MsgID: %s)\n",
            [.str req.TargetUserID, .str m]⟩]
    ∧ (sendUser userTokens Send (.ok req)).panicked = false := by
  unfold sendUser
  simp only [hreg, hsend]
  simp [userMessage]

/-- Witness of C2 (as the code has it): `user_1` bound to `tok-abc`, a
provider answering `msg-1`. -/
theorem sendUser_sent_witness :
    (TokenMap.make.set "user_1" "tok-abc").get "user_1" = ("tok-abc", true)
    ∧ (sendUser (TokenMap.make.set "user_1" "tok-abc") (fun _ => ("msg-1", none))
          (.ok ⟨"user_1", "Hi", "Body"⟩)).sends
        = [userMessage "tok-abc" ⟨"user_1", "Hi", "Body"⟩]
    ∧ (sendUser (TokenMap.make.set "user_1" "tok-abc") (fun _ => ("msg-1", none))
          (.ok ⟨"user_1", "Hi", "Body"⟩)).stdout
        = [⟨"🚀 Terkirim ke User: %s (MsgID: %s)\n",
            [.str "user_1", .str "msg-1"]⟩] :=
  have h := sendUser_sent (TokenMap.make.set "user_1" "tok-abc")
    (fun _ => ("msg-1", none)) ⟨"user_1", "Hi", "Body"⟩ "tok-abc" "msg-1"
    (by decide) rfl
  ⟨by decide, h.1, h.2.2.2.2.2.1⟩

/-- C2 as stated fails: with `user_1` bound to `tok-abc` and a provider
answering `msg-1`, the response of the send-user handler is
`200, status: sent, target_user: user_1`; no value of its body is the message
id, and a provider answering `msg-2` instead gets the very same response. -/
theorem sendUser_response_omits_message_id :
    (sendUser (TokenMap.make.set "user_1" "tok-abc") (fun _ => ("msg-1", none))
        (.ok ⟨"user_1", "Hi", "Body"⟩)).response
      = some ⟨200, [("status", "sent"), ("target_user", "user_1")]⟩
    ∧ ¬ Response.carries
          ⟨200, [("status", "sent"), ("target_user", "user_1")]⟩ "msg-1"
    ∧ (sendUser (TokenMap.make.set "user_1" "tok-abc") (fun _ => ("msg-2", none))
        (.ok ⟨"user_1", "Hi", "Body"⟩)).response
      = (sendUser (TokenMap.make.set "user_1" "tok-abc") (fun _ => ("msg-1", none))
        (.ok ⟨"user_1", "Hi", "Body"⟩)).response := by
  refine ⟨by decide, by decide, by decide⟩

/-- C3: after any sequence of register calls run from the empty map, a
send-user request whose `target_user_id` is the user id of none of the calls
that bound is answered 404 with the not-registered text, and the provider is
not called. -/
theorem sendUser_never_registered (calls : List (Except GoError TokenReq))
    (Send : Sender) (req : SendUserReq)
    (h : ∀ q : TokenReq, Except.ok q ∈ calls → q.UserID ≠ req.TargetUserID) :
    (sendUser (registerAll TokenMap.make calls) Send (.ok req)).response
        = some ⟨404, [("error", notRegisteredText req.TargetUserID)]⟩
    ∧ (sendUser (registerAll TokenMap.make calls) Send (.ok req)).sends = [] := by
  have hkey := registerAll_other_key calls TokenMap.make req.TargetUserID h
  have hget : ((registerAll TokenMap.make calls).get req.TargetUserID).2 = false := by
    simp [TokenMap.get, hkey, TokenMap.make]
  rw [sendUser_missing _ Send req hget]
  exact ⟨rfl, rfl⟩

/-- Witness of C3: two registrations, of `user_1` and `user_2`, then a send
to `user_404`. -/
theorem sendUser_never_registered_witness :
    (∀ q : TokenReq,
        Except.ok q ∈ [(Except.ok ⟨"user_1", "tok-abcdefghij"⟩ : Except GoError TokenReq),
                       Except.ok ⟨"user_2", "tok-abc"⟩] →
        q.UserID ≠ "user_404")
    ∧ (sendUser (registerAll TokenMap.make
          [Except.ok ⟨"user_1", "tok-abcdefghij"⟩, Except.ok ⟨"user_2", "tok-abc"⟩])
          (fun _ => ("msg-1", none)) (.ok ⟨"user_404", "Hi", "Body"⟩)).sends = [] :=
  have hq : ∀ q : TokenReq,
      Except.ok q ∈ [(Except.ok ⟨"user_1", "tok-abcdefghij"⟩ : Except GoError TokenReq),
                     Except.ok ⟨"user_2", "tok-abc"⟩] →
      q.UserID ≠ "user_404" := by
    intro q hq
    simp only [List.mem_cons, Except.ok.injEq, List.mem_singleton, List.not_mem_nil,
      or_false] at hq
    rcases hq with rfl | rfl <;> decide
  ⟨hq, (sendUser_never_registered _ (fun _ => ("msg-1", none))
      ⟨"user_404", "Hi", "Body"⟩ hq).2⟩

/-! ## The register handler on short, long and empty strings -/

/-- C4, at the request `user_id: user_1, token: tok-abc` (both strings
non-empty): the token has 7 bytes, the slice bound `len(req.Token)-10` is
`-3`, the slice expression panics, and the handler ends in that panic having
written no response, after the map write. -/
theorem register_short_token_panics :
    len "tok-abc" - 10 = -3
    ∧ sliceFrom "tok-abc" (len "tok-abc" - 10) = none
    ∧ (register TokenMap.make (.ok ⟨"user_1", "tok-abc"⟩)).panicked = true
    ∧ (register TokenMap.make (.ok ⟨"user_1", "tok-abc"⟩)).response = none
    ∧ (register TokenMap.make (.ok ⟨"user_1", "tok-abc"⟩)).userTokens.get "user_1"
        = ("tok-abc", true) := by
  refine ⟨by decide, by decide, by decide, by decide, by decide⟩

/-- C6 as stated fails: the register request with the empty `user_id` and the
token `0123456789` is answered 200 with the success message, not 400, and the
map then binds the empty user id to that token. -/
theorem register_accepts_empty_user_id :
    (register TokenMap.make (.ok ⟨"", "0123456789"⟩)).response
      = some ⟨200, [("message", "User registered successfully")]⟩
    ∧ (register TokenMap.make (.ok ⟨"", "0123456789"⟩)).userTokens.get ""
      = ("0123456789", true) := by
  refine ⟨by decide, by decide⟩

/-- C6 (as the code has it): the register handler checks nothing but the
binding of the body.  When binding fails it answers 400 with the text of the
binding error and leaves the map as it was.  No bound request `anyReq`,
whatever its two strings are (empty or short ones included), is answered 400.
A bound request whose token has at least 10 bytes is stored and answered 200
with the success message, whatever its `user_id` is, the empty string
included. -/
theorem register_checks_binding_only (userTokens : TokenMap) (err : GoError)
    (anyReq req : TokenReq) (h : 10 ≤ len req.Token) :
    (register userTokens (.error err)).response = some ⟨400, [("error", err.text)]⟩
    ∧ (register userTokens (.error err)).userTokens = userTokens
    ∧ (∀ body : List (String × String),
        (register userTokens (.ok anyReq)).response ≠ some ⟨400, body⟩)
    ∧ (register userTokens (.ok req)).response
        = some ⟨200, [("message", "User registered successfully")]⟩
    ∧ (register userTokens (.ok req)).panicked = false
    ∧ (register userTokens (.ok req)).userTokens
        = userTokens.set req.UserID req.Token := by
  have hl := register_long_token userTokens req h
  refine ⟨rfl, rfl, ?_, hl.1, hl.2, register_ok_userTokens userTokens req⟩
  intro body
  unfold register
  dsimp only
  split
  · intro hc
    exact Option.noConfusion hc
  · intro hc
    have hcode := congrArg (Option.map Response.code) hc
    simp at hcode

/-- Witness of C6 (as the code has it): the empty `user_id` with a token of
10 bytes is answered 200, and the request with two empty strings is not
answered 400. -/
theorem register_checks_binding_only_witness :
    10 ≤ len (TokenReq.mk "" "0123456789").Token
    ∧ (register TokenMap.make (.ok ⟨"", "0123456789"⟩)).response
        = some ⟨200, [("message", "User registered successfully")]⟩
    ∧ (register TokenMap.make (.ok ⟨"", ""⟩)).response
        ≠ some ⟨400, [("error", "EOF")]⟩ :=
  have h := register_checks_binding_only TokenMap.make ⟨"EOF"⟩ ⟨"", ""⟩
    ⟨"", "0123456789"⟩ (by decide)
  ⟨by decide, h.2.2.2.1, h.2.2.1 [("error", "EOF")]⟩

/-! ## Provider errors -/

/-- C5: when the provider's `Send` returns the error `e` for the message of a
send-user request on a registered user, the handler answers 500 with the text
of `e` in the body and has called the provider exactly once, with that
message; and on every map `anyTokens` (the empty one included), when the
provider's `Send` returns the error `eb` for the message of a broadcast
request, the broadcast handler answers 500 with the text of `eb` and has
called the provider exactly once, with that message. -/
theorem provider_error_is_500 (userTokens anyTokens : TokenMap)
    (SendU SendB : Sender)
    (req : SendUserReq) (breq : BroadcastReq) (a : String) (e eb : GoError)
    (hreg : userTokens.get req.TargetUserID = (a, true))
    (hu : (SendU (userMessage a req)).2 = some e)
    (hb : (SendB (topicMessage breq)).2 = some eb) :
    ((sendUser userTokens SendU (.ok req)).response
        = some ⟨500, [("error", e.text)]⟩
      ∧ (sendUser userTokens SendU (.ok req)).sends = [userMessage a req])
    ∧ ((broadcast anyTokens SendB (.ok breq)).response
        = some ⟨500, [("error", eb.text)]⟩
      ∧ (broadcast anyTokens SendB (.ok breq)).sends = [topicMessage breq]) := by
  constructor
  · unfold sendUser
    simp only [hreg]
    rcases hs : SendU (userMessage a req) with ⟨id, r⟩
    rw [hs] at hu
    simp only at hu
    subst hu
    exact ⟨rfl, rfl⟩
  · unfold broadcast
    rcases hs : SendB (topicMessage breq) with ⟨id, r⟩
    rw [hs] at hb
    simp only at hb
    subst hb
    simp only [hs]
    exact ⟨trivial, trivial⟩

/-- Witness of C5: `user_1` bound to `tok-abc` for the send-user request, the
empty map for the broadcast request, and a provider that fails every call
with the text `unavailable`. -/
theorem provider_error_is_500_witness :
    (TokenMap.make.set "user_1" "tok-abc").get "user_1" = ("tok-abc", true)
    ∧ (sendUser (TokenMap.make.set "user_1" "tok-abc")
          (fun _ => ("", some ⟨"unavailable"⟩)) (.ok ⟨"user_1", "Hi", "Body"⟩)).response
        = some ⟨500, [("error", "unavailable")]⟩
    ∧ (broadcast TokenMap.make
          (fun _ => ("", some ⟨"unavailable"⟩)) (.ok ⟨"news", "Hi", "Body"⟩)).response
        = some ⟨500, [("error", "unavailable")]⟩
    ∧ (broadcast TokenMap.make
          (fun _ => ("", some ⟨"unavailable"⟩)) (.ok ⟨"news", "Hi", "Body"⟩)).sends
        = [topicMessage ⟨"news", "Hi", "Body"⟩] :=
  have h := provider_error_is_500 (TokenMap.make.set "user_1" "tok-abc")
    TokenMap.make
    (fun _ => ("", some ⟨"unavailable"⟩)) (fun _ => ("", some ⟨"unavailable"⟩))
    ⟨"user_1", "Hi", "Body"⟩ ⟨"news", "Hi", "Body"⟩ "tok-abc"
    ⟨"unavailable"⟩ ⟨"unavailable"⟩ (by decide) rfl rfl
  ⟨by decide, h.1.1, h.2.1, h.2.2⟩

/-! ## The send-user handler on empty strings -/

/-- C7 as stated fails: with `user_1` bound to `tok-abc`, the send-user
request with empty title and body reads the map, calls the provider with an
empty notification and is answered 200; and the request with the empty
`target_user_id` reads the map and is answered 404, not 400. -/
theorem sendUser_accepts_empty_fields :
    (sendUser (TokenMap.make.set "user_1" "tok-abc") (fun _ => ("msg-1", none))
        (.ok ⟨"user_1", "", ""⟩)).reads = ["user_1"]
    ∧ (sendUser (TokenMap.make.set "user_1" "tok-abc") (fun _ => ("msg-1", none))
        (.ok ⟨"user_1", "", ""⟩)).sends
      = [⟨"tok-abc", "", some ⟨"", ""⟩, [("screen", "chat")]⟩]
    ∧ (sendUser (TokenMap.make.set "user_1" "tok-abc") (fun _ => ("msg-1", none))
        (.ok ⟨"user_1", "", ""⟩)).response
      = some ⟨200, [("status", "sent"), ("target_user", "user_1")]⟩
    ∧ (sendUser (TokenMap.make.set "user_1" "tok-abc") (fun _ => ("msg-1", none))
        (.ok ⟨"", "Hi", "Body"⟩)).reads = [""]
    ∧ (sendUser (TokenMap.make.set "user_1" "tok-abc") (fun _ => ("msg-1", none))
        (.ok ⟨"", "Hi", "Body"⟩)).response
      = some ⟨404, [("error", "User ID '' belum terdaftar/connect")]⟩ := by
  refine ⟨by decide, by decide, by decide, by decide, by decide⟩

/-- C7 (as the code has it): the send-user handler checks nothing but the
binding of the body.  When binding fails it answers 400 with the text of the
binding error, reads no key of the map and does not call the provider.  Every
bound request, empty strings included, reads the key `target_user_id`; when
that key is absent the answer is 404 and the provider is not called; when it
is present the provider is called exactly once with the message built from
the bound address and the request's title and body, and the answer is 200 or
500. -/
theorem sendUser_checks_binding_only (userTokens : TokenMap) (Send : Sender)
    (err : GoError) (req : SendUserReq) :
    ((sendUser userTokens Send (.error err)).response
        = some ⟨400, [("error", err.text)]⟩
      ∧ (sendUser userTokens Send (.error err)).reads = []
      ∧ (sendUser userTokens Send (.error err)).sends = [])
    ∧ (sendUser userTokens Send (.ok req)).reads = [req.TargetUserID]
    ∧ (((userTokens.get req.TargetUserID).2 = false
          ∧ (sendUser userTokens Send (.ok req)).response
              = some ⟨404, [("error", notRegisteredText req.TargetUserID)]⟩
          ∧ (sendUser userTokens Send (.ok req)).sends = [])
        ∨ ((userTokens.get req.TargetUserID).2 = true
          ∧ (sendUser userTokens Send (.ok req)).sends
              = [userMessage (userTokens.get req.TargetUserID).1 req]
          ∧ ((sendUser userTokens Send (.ok req)).response.map Response.code = some 200
            ∨ (sendUser userTokens Send (.ok req)).response.map Response.code
                = some 500))) := by
  refine ⟨⟨rfl, rfl, rfl⟩, ?_⟩
  rcases hg : userTokens.get req.TargetUserID with ⟨a, b⟩
  cases b with
  | false =>
    have hm := sendUser_missing userTokens Send req (by rw [hg])
    rw [hm]
    exact ⟨rfl, Or.inl ⟨rfl, rfl, rfl⟩⟩
  | true =>
    have hf := sendUser_found userTokens Send req a hg
    refine ⟨hf.1, Or.inr ⟨rfl, hf.2, ?_⟩⟩
    unfold sendUser
    simp only [hg]
    split
    · exact Or.inr rfl
    · exact Or.inl rfl

/-! ## Broadcast and the frame of the dispatch handlers -/

/-- C8: the broadcast handler does not depend on the map.  On two maps, with
the same request and the same provider, it hands the provider the same
messages and writes the same response and the same output; it reads no key of
the map; and for a bound request the one message handed over has the
request's topic, an empty token, and the request's title and body. -/
theorem broadcast_ignores_registry (m1 m2 : TokenMap) (Send : Sender)
    (bound : Except GoError BroadcastReq) (req : BroadcastReq) :
    (broadcast m1 Send bound).sends = (broadcast m2 Send bound).sends
    ∧ (broadcast m1 Send bound).response = (broadcast m2 Send bound).response
    ∧ (broadcast m1 Send bound).stdout = (broadcast m2 Send bound).stdout
    ∧ (broadcast m1 Send bound).reads = []
    ∧ (broadcast m1 Send (.ok req)).sends = [topicMessage req]
    ∧ (topicMessage req).Topic = req.Topic
    ∧ (topicMessage req).Token = ""
    ∧ (topicMessage req).Notification = some ⟨req.Title, req.Body⟩ := by
  refine ⟨?_, ?_, ?_, ?_, ?_, rfl, rfl, rfl⟩
  · cases bound with
    | error err => rfl
    | ok q => unfold broadcast; dsimp only; split <;> rfl
  · cases bound with
    | error err => rfl
    | ok q => unfold broadcast; dsimp only; split <;> rfl
  · cases bound with
    | error err => rfl
    | ok q => unfold broadcast; dsimp only; split <;> rfl
  · cases bound with
    | error err => rfl
    | ok q => unfold broadcast; dsimp only; split <;> rfl
  · unfold broadcast; dsimp only; split <;> rfl

/-- C9: the send-user handler and the broadcast handler leave the map as they
found it, for every map, every outcome of binding and every provider. -/
theorem dispatch_keeps_registry (userTokens : TokenMap) (Send : Sender)
    (ubound : Except GoError SendUserReq) (bbound : Except GoError BroadcastReq) :
    (sendUser userTokens Send ubound).userTokens = userTokens
    ∧ (broadcast userTokens Send bbound).userTokens = userTokens := by
  constructor
  · cases ubound with
    | error err => rfl
    | ok q =>
      unfold sendUser
      dsimp only
      split
      · rfl
      · split <;> rfl
  · cases bbound with
    | error err => rfl
    | ok q => unfold broadcast; dsimp only; split <;> rfl

end Notif
